import Mathlib

/-!
Verification of the PMS5003 frame synchronization / decoding pipeline and the
measurement streaming policy (warmup suppression, duplicate suppression).

The development is a shallow embedding of `src/pms5003_async/serial.py` and of
the historical snapshot of the same logic in `src/pms5003_async/__init__.py`
(the two differ only in `_parse`: `serial.py` builds the measurement from
`unpacked[:-2]`, the snapshot from `unpacked[:-1]`), together with the
`PMS5003Measurement` dataclass from `src/pms5003_async/measurement.py`.

Modelling choices:
* Bytes are `Nat` (hypotheses `< 256` are added where a theorem needs them).
* The serial byte source is a finite `List Nat` consumed from the front; a
  read that needs more bytes than remain models `await` suspending forever
  and is reported as `blocked`.
* `time.time()` is modelled as a fixed function `clk : Nat → Int` of the total
  number of bytes consumed from the source so far (wall time advances only as
  bytes arrive on the wire); the state threads the byte position `pos`.
* The `while`-loops of the Python source are embedded with an explicit fuel
  argument so that every function is structurally recursive and computable;
  the Python-faithful wrappers instantiate the fuel with `length + 1`, which
  always suffices because every loop iteration consumes at least one byte.
  Exhausted fuel is reported by the distinct outcome `fuelOut`, never silently
  conflated with program behaviour.
* A Python exception propagating out of the generator is modelled by the
  `raised` outcome; the value `DataError()` that `_parse` *returns* (it does
  not raise it) is modelled by `Val.err`, an ordinary value travelling through
  the stream exactly as the object does in Python.
-/

/-- PMS5003Measurement from `measurement.py`: 13 integer fields, structural
equality (Python dataclass `==`). -/
structure PMS5003Measurement where
  pm_1 : Nat
  pm_2_5 : Nat
  pm_10 : Nat
  pm_1_atmosphere : Nat
  pm_2_5_atmosphere : Nat
  pm_10_atmosphere : Nat
  p_0_3 : Nat
  p_0_5 : Nat
  p_1_0 : Nat
  p_2_5 : Nat
  p_5_0 : Nat
  p_10 : Nat
  reserved : Nat
deriving DecidableEq, Repr

/-- `PMS5003Serial._START_SEQUENCE = b'\x42\x4d\x00\x1c'`. -/
def START_SEQUENCE : List Nat := [0x42, 0x4d, 0x00, 0x1c]

/-- `PMS5003Serial._FRAME_LENGTH = 28`. -/
def FRAME_LENGTH : Nat := 28

/-- Big-endian byte pair of a 16-bit value (`struct.pack ">H"`). -/
def u16be (v : Nat) : List Nat := [v / 256 % 256, v % 256]

/-- The 13 data fields of a measurement, in wire order (the order of the
dataclass fields, which is the order `_parse` passes `unpacked` on). -/
def fieldsOf (m : PMS5003Measurement) : List Nat :=
  [m.pm_1, m.pm_2_5, m.pm_10, m.pm_1_atmosphere, m.pm_2_5_atmosphere,
   m.pm_10_atmosphere, m.p_0_3, m.p_0_5, m.p_1_0, m.p_2_5, m.p_5_0,
   m.p_10, m.reserved]

/-- The 28-byte frame payload encoding a measurement, as described by the
round-trip property: 13 big-endian u16 data fields followed by a big-endian
u16 checksum equal to the sum of the 30 preceding frame bytes mod 65536.
(The repository has no encoder; frames originate from the device.  This
definition follows the wire layout of the spec, which the decoder is checked
against.) -/
def encodePayload (m : PMS5003Measurement) : List Nat :=
  let dataBytes := ((fieldsOf m).map u16be).flatten
  dataBytes ++ u16be ((START_SEQUENCE.sum + dataBytes.sum) % 65536)

/-- The full 32-byte wire frame: start marker and length header followed by
the 28-byte payload. -/
def encodeFrame (m : PMS5003Measurement) : List Nat :=
  START_SEQUENCE ++ encodePayload m

/-- `struct.unpack(">HHHHHHHHHHHHHH", frame)`: consecutive big-endian u16
values (the caller guards that the buffer length is exactly 28). -/
def unpackU16BE : List Nat → List Nat
  | hi :: lo :: rest => (hi * 256 + lo) :: unpackU16BE rest
  | _ => []

/-- `PMS5003Measurement(*args)`: the dataclass constructor accepts exactly 13
positional arguments; any other arity raises `TypeError` (modelled `none`). -/
def mkMeasurement : List Nat → Option PMS5003Measurement
  | [a, b, c, d, e, f, g, h, i, j, k, l, m] => some ⟨a, b, c, d, e, f, g, h, i, j, k, l, m⟩
  | _ => none

/-- `actual_checksum = sum(PMS5003Serial._START_SEQUENCE + frame[:-2])` from
`_parse` (both variants). -/
def actualChecksum (frame : List Nat) : Nat :=
  (START_SEQUENCE ++ frame.take (frame.length - 2)).sum

/-- Outcome of `_parse`: `ok` is a returned measurement, `dataError` is the
`DataError()` instance that `_parse` *returns* on checksum mismatch,
`typeError` is the `TypeError` raised when the constructor receives the wrong
number of arguments, `structError` is the `struct.error` raised by
`struct.unpack` when the buffer is not exactly 28 bytes. -/
inductive ParseOutcome where
  | ok (m : PMS5003Measurement)
  | dataError
  | typeError
  | structError
deriving DecidableEq, Repr

/-- `PMS5003Serial._parse` from `serial.py` (lines 33-41): unpack 14 u16
values, compare the checksum, then `PMS5003Measurement(*unpacked[:-2])` —
note `[:-2]` keeps only 12 of the 14 values. -/
def parse_serial (frame : List Nat) : ParseOutcome :=
  if frame.length ≠ 28 then ParseOutcome.structError
  else if actualChecksum frame ≠ (unpackU16BE frame).getD 13 0 then ParseOutcome.dataError
  else
    match mkMeasurement (unpackU16BE frame).dropLast.dropLast with
    | some m => ParseOutcome.ok m
    | none => ParseOutcome.typeError

/-- `PMS5003Serial._parse` from the `__init__.py` snapshot (lines 104-110):
identical except the constructor call is `PMS5003Measurement(*unpacked[:-1])`,
keeping 13 of the 14 values (all data fields, dropping only the checksum). -/
def parse_init (frame : List Nat) : ParseOutcome :=
  if frame.length ≠ 28 then ParseOutcome.structError
  else if actualChecksum frame ≠ (unpackU16BE frame).getD 13 0 then ParseOutcome.dataError
  else
    match mkMeasurement (unpackU16BE frame).dropLast with
    | some m => ParseOutcome.ok m
    | none => ParseOutcome.typeError

/-- A value travelling through the stream: either a decoded measurement or a
`DataError()` instance returned by `_parse` (Python passes the object along in
the `(timestamp, value)` tuple). -/
inductive Val where
  | meas (m : PMS5003Measurement)
  | err
deriving DecidableEq, Repr

/-- Python `current == previous` as used by the dedupe check: dataclass
structural equality between two measurements; a measurement compared with
`None` is `False`; a `DataError` instance compares by identity, and each
instance is fresh, so the comparison is `False`. -/
def pyEq : Val → Option Val → Bool
  | Val.meas m, some (Val.meas p) => decide (m = p)
  | _, _ => false

/-- A Python exception propagating out of the pipeline. -/
inductive PyExn where
  | typeError
  | structError
deriving DecidableEq, Repr

/-- `PMS5003Serial._read_start` from `serial.py` (lines 25-30): read one byte
at a time, comparing against the start sequence; on the first mismatch return
`False` (the mismatching byte has been consumed); `pos` threads the count of
bytes consumed from the source. -/
def read_start : List Nat → Nat → List Nat → Option (Bool × Nat × List Nat)
  | [], pos, s => some (true, pos, s)
  | _ :: _, _, [] => none
  | e :: es, pos, c :: s =>
    if c = e then read_start es (pos + 1) s else some (false, pos + 1, s)

/-- `await self._aioserial.read_async(n)`: blocks until exactly `n` bytes are
available; `none` models suspending forever on an exhausted source. -/
def readExact : Nat → List Nat → Option (List Nat × List Nat)
  | 0, s => some ([], s)
  | _ + 1, [] => none
  | n + 1, c :: s =>
    match readExact n s with
    | some (bs, rest) => some (c :: bs, rest)
    | none => none

/-- Outcome of one `try_read_one` call. -/
inductive TryResult where
  | blocked
  | noStart (pos : Nat) (s : List Nat)
  | raised (e : PyExn)
  | ok (ts : Int) (v : Val) (pos : Nat) (s : List Nat)
deriving DecidableEq, Repr

/-- `PMS5003Serial.try_read_one` (lines 44-49): if `_read_start` fails return
`None`; otherwise record `timestamp = time.time()` (the wall clock at the
current byte position — i.e. right after the 4-byte marker, before the
payload is read), read the 28-byte payload, and return
`(timestamp, _parse(frame))`.  The parse variant is a parameter because the
two source files differ only there. -/
def tryReadOne (parse : List Nat → ParseOutcome) (clk : Nat → Int)
    (pos : Nat) (s : List Nat) : TryResult :=
  match read_start START_SEQUENCE pos s with
  | none => TryResult.blocked
  | some (false, pos', s') => TryResult.noStart pos' s'
  | some (true, pos', s') =>
    let timestamp := clk pos'
    match readExact FRAME_LENGTH s' with
    | none => TryResult.blocked
    | some (frame, s'') =>
      match parse frame with
      | ParseOutcome.ok m => TryResult.ok timestamp (Val.meas m) (pos' + FRAME_LENGTH) s''
      | ParseOutcome.dataError => TryResult.ok timestamp Val.err (pos' + FRAME_LENGTH) s''
      | ParseOutcome.typeError => TryResult.raised PyExn.typeError
      | ParseOutcome.structError => TryResult.raised PyExn.structError

/-- Outcome of `read_one`. -/
inductive ReadOneResult where
  | fuelOut
  | blocked
  | raised (e : PyExn)
  | ok (ts : Int) (v : Val) (pos : Nat) (s : List Nat)
deriving DecidableEq, Repr

/-- `PMS5003Serial.read_one` (lines 52-57): loop `try_read_one` until it
returns a truthy item.  Note that the `(timestamp, DataError())` tuple is
truthy, so a checksum failure is returned exactly like a measurement.
Fuel-indexed body. -/
def readOneF (parse : List Nat → ParseOutcome) (clk : Nat → Int) :
    Nat → Nat → List Nat → ReadOneResult
  | 0, _, _ => ReadOneResult.fuelOut
  | fuel + 1, pos, s =>
    match tryReadOne parse clk pos s with
    | TryResult.blocked => ReadOneResult.blocked
    | TryResult.raised e => ReadOneResult.raised e
    | TryResult.ok ts v pos' s' => ReadOneResult.ok ts v pos' s'
    | TryResult.noStart pos' s' => readOneF parse clk fuel pos' s'

/-- `read_one` with the always-sufficient fuel `s.length + 1` (every retry of
the loop consumes at least one byte). -/
def readOne (parse : List Nat → ParseOutcome) (clk : Nat → Int)
    (pos : Nat) (s : List Nat) : ReadOneResult :=
  readOneF parse clk (s.length + 1) pos s

/-- Why a generator run ended (the byte source model is finite). -/
inductive Terminal where
  | fuelOut
  | blocked
  | raised (e : PyExn)
deriving DecidableEq, Repr

/-- What a run of the `read` generator produced: the emitted
`(timestamp, value)` pairs in order, and why the run stopped. -/
structure StreamResult where
  emitted : List (Int × Val)
  terminal : Terminal
deriving DecidableEq, Repr

/-- The main `while True:` loop of `PMS5003Serial.read` (lines 74-79):
read one item, skip it when `dedupe and current == previous`, otherwise set
`previous = current` and yield `(ts, current)`.  Fuel-indexed body. -/
def readLoopF (parse : List Nat → ParseOutcome) (clk : Nat → Int) (dedupe : Bool) :
    Nat → Option Val → Nat → List Nat → StreamResult
  | 0, _, _, _ => ⟨[], Terminal.fuelOut⟩
  | fuel + 1, previous, pos, s =>
    match readOne parse clk pos s with
    | ReadOneResult.fuelOut => ⟨[], Terminal.fuelOut⟩
    | ReadOneResult.blocked => ⟨[], Terminal.blocked⟩
    | ReadOneResult.raised e => ⟨[], Terminal.raised e⟩
    | ReadOneResult.ok ts current pos' s' =>
      if dedupe && pyEq current previous then
        readLoopF parse clk dedupe fuel previous pos' s'
      else
        let rest := readLoopF parse clk dedupe fuel (some current) pos' s'
        ⟨(ts, current) :: rest.emitted, rest.terminal⟩

/-- Result of the warmup `while` loop of `read`. -/
inductive WarmupResult where
  | done (previous : Option Val) (pos : Nat) (s : List Nat)
  | stop (t : Terminal)
deriving DecidableEq, Repr

/-- The warmup loop of `PMS5003Serial.read` (lines 67-73):
`while ts < warmup_time: ts, current = await self.read_one(); previous =
current`.  Fuel-indexed body. -/
def warmupLoopF (parse : List Nat → ParseOutcome) (clk : Nat → Int)
    (warmup_time : Int) :
    Nat → Int → Option Val → Nat → List Nat → WarmupResult
  | 0, _, _, _, _ => WarmupResult.stop Terminal.fuelOut
  | fuel + 1, ts, previous, pos, s =>
    if ts < warmup_time then
      match readOne parse clk pos s with
      | ReadOneResult.fuelOut => WarmupResult.stop Terminal.fuelOut
      | ReadOneResult.blocked => WarmupResult.stop Terminal.blocked
      | ReadOneResult.raised e => WarmupResult.stop (Terminal.raised e)
      | ReadOneResult.ok ts' current pos' s' =>
        warmupLoopF parse clk warmup_time fuel ts' (some current) pos' s'
    else WarmupResult.done previous pos s

namespace PMS5003Serial

/-- `PMS5003Serial.read` (lines 60-79): `previous = None`; if `warmup > 0`
record `start_time = time.time()`, set `warmup_time = start_time + warmup`,
run the warmup loop starting from `ts = start_time`; then run the main
dedupe/yield loop.  Wrappers instantiate the loop fuels with `length + 1`. -/
def read (parse : List Nat → ParseOutcome) (clk : Nat → Int) (dedupe : Bool)
    (warmup : Int) (pos : Nat) (s : List Nat) : StreamResult :=
  if 0 < warmup then
    let start_time := clk pos
    match warmupLoopF parse clk (start_time + warmup) (s.length + 1)
        start_time none pos s with
    | WarmupResult.stop t => ⟨[], t⟩
    | WarmupResult.done previous pos' s' =>
      readLoopF parse clk dedupe (s'.length + 1) previous pos' s'
  else
    readLoopF parse clk dedupe (s.length + 1) none pos s

end PMS5003Serial

/-- The wall clock that ticks one unit per byte received. -/
def natClock : Nat → Int := fun n => (n : Int)

/-- The measurement of the spec's end-to-end scenario, data fields
`[10, 20, 30, 10, 20, 30, 100, 90, 80, 70, 60, 50, 0]`. -/
def M0 : PMS5003Measurement := ⟨10, 20, 30, 10, 20, 30, 100, 90, 80, 70, 60, 50, 0⟩

/-- A second measurement differing from `M0` in one field. -/
def M1 : PMS5003Measurement := ⟨11, 20, 30, 10, 20, 30, 100, 90, 80, 70, 60, 50, 0⟩

/-- A payload whose stored checksum is deliberately off by one. -/
def corruptPayload (m : PMS5003Measurement) : List Nat :=
  let dataBytes := ((fieldsOf m).map u16be).flatten
  dataBytes ++ u16be ((START_SEQUENCE.sum + dataBytes.sum + 1) % 65536)

/-- A full frame around `corruptPayload`. -/
def corruptFrame (m : PMS5003Measurement) : List Nat :=
  START_SEQUENCE ++ corruptPayload m

/-! ### Helper lemmas about the encoder and the decoders -/

lemma fieldsOf_length (m : PMS5003Measurement) : (fieldsOf m).length = 13 := rfl

lemma dataBytes_length (m : PMS5003Measurement) :
    (((fieldsOf m).map u16be).flatten).length = 26 := rfl

lemma encodePayload_length (m : PMS5003Measurement) :
    (encodePayload m).length = 28 := rfl

lemma encodeFrame_length (m : PMS5003Measurement) :
    (encodeFrame m).length = 32 := rfl

lemma u16be_recombine {v : Nat} (hv : v < 65536) : v / 256 % 256 * 256 + v % 256 = v := by
  omega

/-- Decoding inverts encoding on each 16-bit field. -/
lemma unpack_map_u16be (l : List Nat) (hl : ∀ v ∈ l, v < 65536) (rest : List Nat) :
    unpackU16BE ((l.map u16be).flatten ++ rest) = l ++ unpackU16BE rest := by
  induction l with
  | nil => simp
  | cons v l ih =>
    have hv : v < 65536 := hl v (by simp)
    have ih' := ih (fun x hx => hl x (by simp [hx]))
    simp only [List.map_cons, List.flatten_cons, List.cons_append, List.append_assoc, u16be]
    simp only [List.cons_append, unpackU16BE]
    rw [u16be_recombine hv, List.nil_append, ih']

lemma unpack_u16be_single {v : Nat} (hv : v < 65536) : unpackU16BE (u16be v) = [v] := by
  simp only [u16be, unpackU16BE]
  rw [u16be_recombine hv]

lemma dataBytes_mem_lt (m : PMS5003Measurement) :
    ∀ b ∈ ((fieldsOf m).map u16be).flatten, b < 256 := by
  intro b hb
  rw [List.mem_flatten] at hb
  obtain ⟨l, hl, hbl⟩ := hb
  rw [List.mem_map] at hl
  obtain ⟨v, _, rfl⟩ := hl
  simp only [u16be, List.mem_cons, List.not_mem_nil, or_false] at hbl
  rcases hbl with rfl | rfl <;> omega

lemma byte_sum_le {l : List Nat} (hl : ∀ b ∈ l, b < 256) : l.sum ≤ l.length * 255 := by
  have := List.sum_le_card_nsmul l 255 (fun x hx => by have := hl x hx; omega)
  simpa [smul_eq_mul, Nat.mul_comm] using this

/-- The checksum sum over a frame's first 30 bytes is below 2^16, so the
`mod 65536` of the encoder is the identity there. -/
lemma encode_checksum_lt (m : PMS5003Measurement) :
    START_SEQUENCE.sum + (((fieldsOf m).map u16be).flatten).sum < 65536 := by
  have h1 := byte_sum_le (dataBytes_mem_lt m)
  rw [dataBytes_length] at h1
  have h2 : START_SEQUENCE.sum = 171 := rfl
  omega

/-- The decoded 14-tuple of an encoded payload: the 13 fields followed by the
checksum value, which the encoder's `mod 65536` leaves intact. -/
lemma unpack_encodePayload (m : PMS5003Measurement)
    (hm : ∀ f ∈ fieldsOf m, f < 65536) :
    unpackU16BE (encodePayload m) =
      fieldsOf m ++ [START_SEQUENCE.sum + (((fieldsOf m).map u16be).flatten).sum] := by
  have hck := encode_checksum_lt m
  rw [show encodePayload m = ((fieldsOf m).map u16be).flatten ++
      u16be ((START_SEQUENCE.sum + (((fieldsOf m).map u16be).flatten).sum) % 65536) from rfl]
  rw [unpack_map_u16be _ hm, unpack_u16be_single (Nat.mod_lt _ (by norm_num)),
    Nat.mod_eq_of_lt hck]

lemma actualChecksum_encodePayload (m : PMS5003Measurement) :
    actualChecksum (encodePayload m) =
      START_SEQUENCE.sum + (((fieldsOf m).map u16be).flatten).sum := by
  unfold actualChecksum
  rw [encodePayload_length]
  rw [show encodePayload m = ((fieldsOf m).map u16be).flatten ++
      u16be ((START_SEQUENCE.sum + (((fieldsOf m).map u16be).flatten).sum) % 65536) from rfl]
  rw [show (28 : Nat) - 2 = (((fieldsOf m).map u16be).flatten).length from rfl]
  rw [List.take_left, List.sum_append]

/-- The expected checksum read back by the decoder equals the actual one. -/
lemma expected_encodePayload (m : PMS5003Measurement)
    (hm : ∀ f ∈ fieldsOf m, f < 65536) :
    (unpackU16BE (encodePayload m)).getD 13 0 = actualChecksum (encodePayload m) := by
  rw [unpack_encodePayload m hm, actualChecksum_encodePayload,
    List.getD_append_right _ _ _ _ (by rw [fieldsOf_length]), fieldsOf_length]
  rfl

/-- Round trip for the 13-field decoder variant of `__init__.py`. -/
lemma parse_init_encode (m : PMS5003Measurement)
    (hm : ∀ f ∈ fieldsOf m, f < 65536) :
    parse_init (encodePayload m) = ParseOutcome.ok m := by
  unfold parse_init
  rw [encodePayload_length, if_neg (by omega), expected_encodePayload m hm,
    if_neg (by simp), unpack_encodePayload m hm, List.dropLast_concat]
  rfl

/-- The 12-argument constructor call of `serial.py` raises `TypeError` on
every checksum-valid frame. -/
lemma parse_serial_encode (m : PMS5003Measurement)
    (hm : ∀ f ∈ fieldsOf m, f < 65536) :
    parse_serial (encodePayload m) = ParseOutcome.typeError := by
  unfold parse_serial
  rw [encodePayload_length, if_neg (by omega), expected_encodePayload m hm,
    if_neg (by simp), unpack_encodePayload m hm, List.dropLast_concat]
  rfl

/-! ### Helper lemmas about reading from the byte source -/

lemma readExact_append (l rest : List Nat) :
    readExact l.length (l ++ rest) = some (l, rest) := by
  induction l with
  | nil => rfl
  | cons c l ih => simp [readExact, ih]

/-- The marker scan succeeds exactly on the 4 marker bytes, consuming 4. -/
lemma read_start_marker (pos : Nat) (s : List Nat) :
    read_start START_SEQUENCE pos (0x42 :: 0x4d :: 0x00 :: 0x1c :: s) =
      some (true, pos + 4, s) := by
  have h4 : pos + 1 + 1 + 1 + 1 = pos + 4 := by omega
  simp [read_start, START_SEQUENCE, h4]

/-- A first byte that is not `0x42` fails the scan immediately; the byte is
consumed. -/
lemma read_start_mismatch0 (pos : Nat) {b : Nat} (hb : b ≠ 0x42) (s : List Nat) :
    read_start START_SEQUENCE pos (b :: s) = some (false, pos + 1, s) := by
  simp [read_start, START_SEQUENCE, hb]

/-- Reading one item positioned exactly at a frame: the start sequence
matches, the timestamp is the wall clock right after the 4 marker bytes, the
28 payload bytes are consumed and decode to the measurement. -/
lemma readOneF_frame (clk : Nat → Int) (fuel pos : Nat) (rest : List Nat)
    (m : PMS5003Measurement) (hm : ∀ f ∈ fieldsOf m, f < 65536) :
    readOneF parse_init clk (fuel + 1) pos (encodeFrame m ++ rest) =
      ReadOneResult.ok (clk (pos + 4)) (Val.meas m) (pos + 32) rest := by
  have hread : readExact 28 (encodePayload m ++ rest) = some (encodePayload m, rest) := by
    have h := readExact_append (encodePayload m) rest
    rwa [encodePayload_length] at h
  have hstream : encodeFrame m ++ rest =
      0x42 :: 0x4d :: 0x00 :: 0x1c :: (encodePayload m ++ rest) := by
    simp [encodeFrame, START_SEQUENCE]
  have h32 : pos + 4 + 28 = pos + 32 := by omega
  have htry : tryReadOne parse_init clk pos
      (0x42 :: 0x4d :: 0x00 :: 0x1c :: (encodePayload m ++ rest)) =
      TryResult.ok (clk (pos + 4)) (Val.meas m) (pos + 32) rest := by
    simp only [tryReadOne, read_start_marker, FRAME_LENGTH, hread,
      parse_init_encode m hm, h32]
  rw [hstream]
  simp only [readOneF, htry]

lemma readOne_frame (clk : Nat → Int) (pos : Nat) (rest : List Nat)
    (m : PMS5003Measurement) (hm : ∀ f ∈ fieldsOf m, f < 65536) :
    readOne parse_init clk pos (encodeFrame m ++ rest) =
      ReadOneResult.ok (clk (pos + 4)) (Val.meas m) (pos + 32) rest := by
  unfold readOne
  exact readOneF_frame clk (encodeFrame m ++ rest).length pos rest m hm

/-- Noise bytes that cannot match position 0 of the marker are skipped one
per `try_read_one` attempt. -/
lemma readOneF_noise (parse : List Nat → ParseOutcome) (clk : Nat → Int) :
    ∀ (noise : List Nat), (∀ b ∈ noise, b ≠ 0x42) →
    ∀ (fuel pos : Nat) (s : List Nat),
    readOneF parse clk (noise.length + (fuel + 1)) pos (noise ++ s) =
      readOneF parse clk (fuel + 1) (pos + noise.length) s := by
  intro noise
  induction noise with
  | nil => intro _ fuel pos s; simp
  | cons b ns ih =>
    intro h fuel pos s
    have hb : b ≠ 0x42 := h b (by simp)
    have hns : ∀ x ∈ ns, x ≠ 0x42 := fun x hx => h x (by simp [hx])
    have hlen : (b :: ns).length + (fuel + 1) = ns.length + (fuel + 1) + 1 := by
      simp only [List.length_cons]; omega
    rw [hlen]
    have hstep : readOneF parse clk (ns.length + (fuel + 1) + 1) pos ((b :: ns) ++ s) =
        readOneF parse clk (ns.length + (fuel + 1)) (pos + 1) (ns ++ s) := by
      simp only [List.cons_append, readOneF, tryReadOne, read_start_mismatch0 pos hb]
    rw [hstep, ih hns fuel (pos + 1) s]
    have hpos : pos + 1 + ns.length = pos + (b :: ns).length := by
      simp only [List.length_cons]; omega
    rw [hpos]

/-- Reading one item through a noise prefix in which no byte can start the
marker: all noise bytes are consumed, then the frame. -/
lemma readOne_noise (clk : Nat → Int) (pos : Nat) (extra : List Nat)
    (noise : List Nat) (h42 : ∀ b ∈ noise, b ≠ 0x42)
    (m : PMS5003Measurement) (hm : ∀ f ∈ fieldsOf m, f < 65536) :
    readOne parse_init clk pos (noise ++ (encodeFrame m ++ extra)) =
      ReadOneResult.ok (clk (pos + noise.length + 4)) (Val.meas m)
        (pos + noise.length + 32) extra := by
  unfold readOne
  have hlen : (noise ++ (encodeFrame m ++ extra)).length + 1 =
      noise.length + ((encodeFrame m ++ extra).length + 1) := by
    simp only [List.length_append]; omega
  rw [hlen, readOneF_noise parse_init clk noise h42 (encodeFrame m ++ extra).length pos _,
    readOneF_frame clk _ _ extra m hm]

lemma readOne_nil (parse : List Nat → ParseOutcome) (clk : Nat → Int) (pos : Nat) :
    readOne parse clk pos [] = ReadOneResult.blocked := rfl

/-! ### Step lemmas for the main loop of `read` -/

lemma readLoopF_emit (parse : List Nat → ParseOutcome) (clk : Nat → Int) (d : Bool)
    {f g : Nat} (hf : f = g + 1) {prev : Option Val} {pos : Nat} {s : List Nat}
    {ts : Int} {c : Val} {pos' : Nat} {s' : List Nat}
    (h : readOne parse clk pos s = ReadOneResult.ok ts c pos' s')
    (hskip : (d && pyEq c prev) = false) :
    readLoopF parse clk d f prev pos s =
      ⟨(ts, c) :: (readLoopF parse clk d g (some c) pos' s').emitted,
       (readLoopF parse clk d g (some c) pos' s').terminal⟩ := by
  subst hf
  simp [readLoopF, h, hskip]

lemma readLoopF_skip (parse : List Nat → ParseOutcome) (clk : Nat → Int) (d : Bool)
    {f g : Nat} (hf : f = g + 1) {prev : Option Val} {pos : Nat} {s : List Nat}
    {ts : Int} {c : Val} {pos' : Nat} {s' : List Nat}
    (h : readOne parse clk pos s = ReadOneResult.ok ts c pos' s')
    (hskip : (d && pyEq c prev) = true) :
    readLoopF parse clk d f prev pos s = readLoopF parse clk d g prev pos' s' := by
  subst hf
  simp [readLoopF, h, hskip]

lemma readLoopF_nil (parse : List Nat → ParseOutcome) (clk : Nat → Int) (d : Bool)
    {f g : Nat} (hf : f = g + 1) (prev : Option Val) (pos : Nat) :
    readLoopF parse clk d f prev pos [] = ⟨[], Terminal.blocked⟩ := by
  subst hf
  simp [readLoopF, readOne_nil]

/-! ### Position and timestamp inversions (byte positions only grow; every
timestamp is the wall clock at some position between the state before and
after the read) -/

lemma read_start_pos_le :
    ∀ (es : List Nat) (pos : Nat) (s : List Nat) (b : Bool) (pos' : Nat) (s' : List Nat),
    read_start es pos s = some (b, pos', s') → pos ≤ pos' := by
  intro es
  induction es with
  | nil =>
    intro pos s b pos' s' h
    simp only [read_start, Option.some.injEq, Prod.mk.injEq] at h
    omega
  | cons e es ih =>
    intro pos s b pos' s' h
    cases s with
    | nil => simp [read_start] at h
    | cons c s2 =>
      simp only [read_start] at h
      by_cases hc : c = e
      · rw [if_pos hc] at h
        have := ih (pos + 1) s2 b pos' s' h
        omega
      · rw [if_neg hc] at h
        simp only [Option.some.injEq, Prod.mk.injEq] at h
        omega

lemma tryReadOne_ok_inv {parse : List Nat → ParseOutcome} {clk : Nat → Int}
    {pos : Nat} {s : List Nat} {ts : Int} {v : Val} {pos' : Nat} {s' : List Nat}
    (h : tryReadOne parse clk pos s = TryResult.ok ts v pos' s') :
    ∃ q, pos ≤ q ∧ q ≤ pos' ∧ ts = clk q := by
  unfold tryReadOne at h
  cases hrs : read_start START_SEQUENCE pos s with
  | none => rw [hrs] at h; simp at h
  | some t =>
    obtain ⟨b, p1, s1⟩ := t
    rw [hrs] at h
    have hle := read_start_pos_le _ _ _ _ _ _ hrs
    cases b with
    | false => simp at h
    | true =>
      dsimp only at h
      cases hre : readExact FRAME_LENGTH s1 with
      | none => rw [hre] at h; simp at h
      | some fr =>
        obtain ⟨frame, s2⟩ := fr
        rw [hre] at h
        dsimp only at h
        cases hp : parse frame with
        | ok m =>
          rw [hp] at h
          simp only [TryResult.ok.injEq] at h
          exact ⟨p1, by omega, by omega, h.1.symm⟩
        | dataError =>
          rw [hp] at h
          simp only [TryResult.ok.injEq] at h
          exact ⟨p1, by omega, by omega, h.1.symm⟩
        | typeError => rw [hp] at h; simp at h
        | structError => rw [hp] at h; simp at h

lemma tryReadOne_noStart_inv {parse : List Nat → ParseOutcome} {clk : Nat → Int}
    {pos : Nat} {s : List Nat} {pos' : Nat} {s' : List Nat}
    (h : tryReadOne parse clk pos s = TryResult.noStart pos' s') : pos ≤ pos' := by
  unfold tryReadOne at h
  cases hrs : read_start START_SEQUENCE pos s with
  | none => rw [hrs] at h; simp at h
  | some t =>
    obtain ⟨b, p1, s1⟩ := t
    rw [hrs] at h
    have hle := read_start_pos_le _ _ _ _ _ _ hrs
    cases b with
    | false =>
      simp only [TryResult.noStart.injEq] at h
      omega
    | true =>
      dsimp only at h
      cases hre : readExact FRAME_LENGTH s1 with
      | none => rw [hre] at h; simp at h
      | some fr =>
        obtain ⟨frame, s2⟩ := fr
        rw [hre] at h
        dsimp only at h
        cases hp : parse frame with
        | ok m => rw [hp] at h; simp at h
        | dataError => rw [hp] at h; simp at h
        | typeError => rw [hp] at h; simp at h
        | structError => rw [hp] at h; simp at h

lemma readOneF_ok_inv {parse : List Nat → ParseOutcome} {clk : Nat → Int} :
    ∀ (fuel pos : Nat) (s : List Nat) {ts : Int} {v : Val} {pos' : Nat} {s' : List Nat},
    readOneF parse clk fuel pos s = ReadOneResult.ok ts v pos' s' →
    ∃ q, pos ≤ q ∧ q ≤ pos' ∧ ts = clk q := by
  intro fuel
  induction fuel with
  | zero => intro pos s ts v pos' s' h; simp [readOneF] at h
  | succ n ih =>
    intro pos s ts v pos' s' h
    cases htr : tryReadOne parse clk pos s with
    | blocked => simp [readOneF, htr] at h
    | raised e => simp [readOneF, htr] at h
    | ok ts1 v1 p1 s1 =>
      simp only [readOneF, htr, ReadOneResult.ok.injEq] at h
      obtain ⟨q, hq1, hq2, hq3⟩ := tryReadOne_ok_inv htr
      exact ⟨q, hq1, by omega, by rw [← h.1, hq3]⟩
    | noStart p1 s1 =>
      simp only [readOneF, htr] at h
      obtain ⟨q, hq1, hq2, hq3⟩ := ih p1 s1 h
      have := tryReadOne_noStart_inv htr
      exact ⟨q, by omega, hq2, hq3⟩

lemma readOne_ok_inv {parse : List Nat → ParseOutcome} {clk : Nat → Int}
    {pos : Nat} {s : List Nat} {ts : Int} {v : Val} {pos' : Nat} {s' : List Nat}
    (h : readOne parse clk pos s = ReadOneResult.ok ts v pos' s') :
    ∃ q, pos ≤ q ∧ q ≤ pos' ∧ ts = clk q := by
  unfold readOne at h
  exact readOneF_ok_inv _ _ _ h

/-- Every timestamp emitted by the main loop is the wall clock at some byte
position at or after the loop's starting position. -/
lemma readLoopF_emitted_inv {parse : List Nat → ParseOutcome} {clk : Nat → Int} {d : Bool} :
    ∀ (fuel : Nat) (prev : Option Val) (pos : Nat) (s : List Nat) {ts : Int} {v : Val},
    (ts, v) ∈ (readLoopF parse clk d fuel prev pos s).emitted →
    ∃ q, pos ≤ q ∧ ts = clk q := by
  intro fuel
  induction fuel with
  | zero => intro prev pos s ts v h; simp [readLoopF] at h
  | succ n ih =>
    intro prev pos s ts v h
    cases hro : readOne parse clk pos s with
    | fuelOut => simp [readLoopF, hro] at h
    | blocked => simp [readLoopF, hro] at h
    | raised e => simp [readLoopF, hro] at h
    | ok ts1 c p1 s1 =>
      obtain ⟨q, hq1, hq2, hq3⟩ := readOne_ok_inv hro
      by_cases hskip : (d && pyEq c prev) = true
      · rw [readLoopF_skip parse clk d rfl hro hskip] at h
        obtain ⟨q2, hq21, hq22⟩ := ih prev p1 s1 h
        exact ⟨q2, by omega, hq22⟩
      · rw [readLoopF_emit parse clk d rfl hro (by simpa using hskip)] at h
        simp only [List.mem_cons, Prod.mk.injEq] at h
        rcases h with ⟨rfl, rfl⟩ | h2
        · exact ⟨q, hq1, hq3⟩
        · obtain ⟨q2, hq21, hq22⟩ := ih (some c) p1 s1 h2
          exact ⟨q2, by omega, hq22⟩

/-- If the warmup loop completes normally, then either it never ran (its
entry timestamp already met the deadline) or the wall clock met the deadline
at some byte position not beyond the loop's final position. -/
lemma warmupLoopF_done_inv {parse : List Nat → ParseOutcome} {clk : Nat → Int} {wt : Int} :
    ∀ (fuel : Nat) (ts : Int) (prev : Option Val) (pos : Nat) (s : List Nat)
    {prev' : Option Val} {pos' : Nat} {s' : List Nat},
    warmupLoopF parse clk wt fuel ts prev pos s = WarmupResult.done prev' pos' s' →
    (wt ≤ ts ∧ pos' = pos) ∨ ∃ q, q ≤ pos' ∧ wt ≤ clk q := by
  intro fuel
  induction fuel with
  | zero => intro ts prev pos s prev' pos' s' h; simp [warmupLoopF] at h
  | succ n ih =>
    intro ts prev pos s prev' pos' s' h
    by_cases hts : ts < wt
    · rw [warmupLoopF, if_pos hts] at h
      cases hro : readOne parse clk pos s with
      | fuelOut => rw [hro] at h; simp at h
      | blocked => rw [hro] at h; simp at h
      | raised e => rw [hro] at h; simp at h
      | ok ts1 c p1 s1 =>
        rw [hro] at h
        rcases ih ts1 (some c) p1 s1 h with ⟨hle, hpos⟩ | ⟨q, hq1, hq2⟩
        · obtain ⟨q0, hq01, hq02, hq03⟩ := readOne_ok_inv hro
          right
          exact ⟨q0, by omega, by rw [← hq03]; exact hle⟩
        · right; exact ⟨q, hq1, hq2⟩
    · rw [warmupLoopF, if_neg hts] at h
      simp only [WarmupResult.done.injEq] at h
      left
      constructor
      · omega
      · omega

/-! ### The decoded checksum field in terms of raw payload bytes -/

lemma unpack_getD :
    ∀ (k : Nat) (l : List Nat), 2 * k + 1 < l.length →
    (unpackU16BE l).getD k 0 = l.getD (2 * k) 0 * 256 + l.getD (2 * k + 1) 0 := by
  intro k
  induction k with
  | zero =>
    intro l hl
    match l with
    | [] => simp at hl
    | [x] => simp at hl
    | hi :: lo :: rest => simp [unpackU16BE]
  | succ k ih =>
    intro l hl
    match l with
    | [] => simp at hl
    | [x] => simp at hl
    | hi :: lo :: rest =>
      have hlen : 2 * k + 1 < rest.length := by
        simp only [List.length_cons] at hl
        omega
      have e1 : 2 * (k + 1) = 2 * k + 1 + 1 := by omega
      have e2 : 2 * (k + 1) + 1 = 2 * k + 1 + 1 + 1 := by omega
      rw [e2, e1]
      rw [show unpackU16BE (hi :: lo :: rest) = (hi * 256 + lo) :: unpackU16BE rest from rfl]
      simp only [List.getD_cons_succ]
      exact ih rest hlen

lemma warmupLoopF_step (parse : List Nat → ParseOutcome) (clk : Nat → Int) (wt : Int)
    {f g : Nat} (hf : f = g + 1) {ts : Int} {prev : Option Val} {pos : Nat} {s : List Nat}
    {ts1 : Int} {c : Val} {p1 : Nat} {s1 : List Nat}
    (hts : ts < wt) (h : readOne parse clk pos s = ReadOneResult.ok ts1 c p1 s1) :
    warmupLoopF parse clk wt f ts prev pos s =
      warmupLoopF parse clk wt g ts1 (some c) p1 s1 := by
  subst hf
  simp [warmupLoopF, hts, h]

lemma warmupLoopF_exit (parse : List Nat → ParseOutcome) (clk : Nat → Int) (wt : Int)
    {f g : Nat} (hf : f = g + 1) {ts : Int} {prev : Option Val} {pos : Nat} {s : List Nat}
    (hts : ¬ ts < wt) :
    warmupLoopF parse clk wt f ts prev pos s = WarmupResult.done prev pos s := by
  subst hf
  simp [warmupLoopF, hts]

lemma natClock_mono : ∀ a b : Nat, a ≤ b → natClock a ≤ natClock b := by
  intro a b h
  simp only [natClock]
  omega

example : parse_init (encodePayload M0) = ParseOutcome.ok M0 := by decide
example : parse_serial (encodePayload M0) = ParseOutcome.typeError := by decide
example : parse_init (corruptPayload M0) = ParseOutcome.dataError := by decide
example :
    PMS5003Serial.read parse_init natClock true 0 0
      (encodeFrame M0 ++ corruptFrame M0 ++ encodeFrame M1) =
    ⟨[(4, Val.meas M0), (36, Val.err), (68, Val.meas M1)], Terminal.blocked⟩ := by
  decide

/-! ### Claim theorems -/

/-- C1: round-trip of encode and decode.  At the spec's end-to-end frame
(a failing input for the live `serial.py` module), the 13-field decoder of
the `__init__.py` snapshot returns the original measurement with a passing
checksum, while `serial.py`'s `_parse` — which passes `unpacked[:-2]`, i.e.
12 values, to the 13-field dataclass constructor — raises `TypeError`
instead of constructing any measurement.  The claim's round trip holds for
the 13-field variant and is violated by `serial.py` on every valid frame. -/
theorem roundtrip_parse_variants :
    parse_init (encodePayload M0) = ParseOutcome.ok M0 ∧
    parse_serial (encodePayload M0) = ParseOutcome.typeError :=
  ⟨parse_init_encode M0 (by decide), parse_serial_encode M0 (by decide)⟩

/-- C2: corruption tolerance fails on the code.  For the byte stream
valid-frame / corrupted-frame (checksum off by one) / valid-frame, the
13-field pipeline yields THREE items: the `DataError()` instance returned by
`_parse` is a truthy `(timestamp, value)` tuple, so `read_one` returns it
and `read` yields it to the consumer between the two valid measurements,
instead of silently discarding it.  (With `serial.py`'s own `_parse` the run
does not even reach the corrupted frame: the first valid frame raises
`TypeError`, terminating the sequence.) -/
theorem corrupted_frame_surfaces_dataerror :
    PMS5003Serial.read parse_init natClock true 0 0
        (encodeFrame M0 ++ corruptFrame M0 ++ encodeFrame M1) =
      ⟨[(4, Val.meas M0), (36, Val.err), (68, Val.meas M1)], Terminal.blocked⟩ ∧
    PMS5003Serial.read parse_serial natClock true 0 0
        (encodeFrame M0 ++ corruptFrame M0 ++ encodeFrame M1) =
      ⟨[], Terminal.raised PyExn.typeError⟩ := by
  decide

/-- C3 counterexample: one noise byte `0x42` before a valid frame (the noise
contains no 4 consecutive marker bytes, so the claim promises the frame is
located, emitted and exactly 33 bytes consumed).  In fact `_read_start`
consumes the mismatching byte, so after matching the noise `0x42` it
consumes the frame's own first byte on the mismatch and the marker is never
found again: the stream emits nothing and `read_one` blocks after eating the
whole stream. -/
theorem resync_misses_frame_after_marker_byte_noise :
    PMS5003Serial.read parse_init natClock true 0 0 ([0x42] ++ encodeFrame M0) =
      ⟨[], Terminal.blocked⟩ ∧
    readOne parse_init natClock 0 ([0x42] ++ encodeFrame M0) =
      ReadOneResult.blocked := by
  decide

/-- C3 amended: on a mismatch the mismatching byte IS consumed and skipped
(scanning resumes at the following byte, it is never re-examined as a
candidate position-0 byte).  Consequently resynchronization with exact
`N + 32` byte consumption holds provided no noise byte equals the marker's
first byte `0x42`: the scanner then discards exactly one noise byte per
attempt, finds the frame, emits its measurement, and the final position
advances by exactly `noise.length + 32`. -/
theorem resync_skips_mismatching_byte (noise : List Nat)
    (h42 : ∀ b ∈ noise, b ≠ 0x42) (m : PMS5003Measurement)
    (hm : ∀ f ∈ fieldsOf m, f < 65536) (clk : Nat → Int) (pos : Nat)
    (extra : List Nat) (d : Bool) :
    readOne parse_init clk pos (noise ++ (encodeFrame m ++ extra)) =
      ReadOneResult.ok (clk (pos + noise.length + 4)) (Val.meas m)
        (pos + noise.length + 32) extra ∧
    PMS5003Serial.read parse_init clk d 0 0 (noise ++ encodeFrame m) =
      ⟨[(clk (noise.length + 4), Val.meas m)], Terminal.blocked⟩ := by
  constructor
  · exact readOne_noise clk pos extra noise h42 m hm
  · have hro : readOne parse_init clk 0 (noise ++ encodeFrame m) =
        ReadOneResult.ok (clk (noise.length + 4)) (Val.meas m)
          (noise.length + 32) [] := by
      have h := readOne_noise clk 0 [] noise h42 m hm
      rw [List.append_nil] at h
      rw [show 0 + noise.length + 4 = noise.length + 4 from by omega,
        show 0 + noise.length + 32 = noise.length + 32 from by omega] at h
      exact h
    unfold PMS5003Serial.read
    rw [if_neg (by omega)]
    rw [readLoopF_emit parse_init clk d
      (show (noise ++ encodeFrame m).length + 1 = (noise ++ encodeFrame m).length + 1
        from rfl) hro (by simp [pyEq])]
    rw [readLoopF_nil parse_init clk d
      (show (noise ++ encodeFrame m).length = noise.length + 31 + 1 from by
        simp [List.length_append, encodeFrame_length])]

theorem resync_skips_mismatching_byte_witness :
    (∀ b ∈ [0, 255, 77], b ≠ 0x42) ∧ (∀ f ∈ fieldsOf M0, f < 65536) ∧
    (readOne parse_init natClock 5 ([0, 255, 77] ++ (encodeFrame M0 ++ [9])) =
      ReadOneResult.ok (natClock (5 + [0, 255, 77].length + 4)) (Val.meas M0)
        (5 + [0, 255, 77].length + 32) [9] ∧
     PMS5003Serial.read parse_init natClock true 0 0 ([0, 255, 77] ++ encodeFrame M0) =
      ⟨[(natClock ([0, 255, 77].length + 4), Val.meas M0)], Terminal.blocked⟩) :=
  ⟨by decide, by decide,
    resync_skips_mismatching_byte [0, 255, 77] (by decide) M0 (by decide)
      natClock 5 [9] true⟩

/-- C6: checksum computation.  For every 28-byte payload of bytes, the
checksum the decoder computes equals the marker-byte sum plus the sum of the
first 26 payload bytes, mod 65536 (the Python `sum` has no `mod` but the sum
of 30 bytes cannot reach 2^16), and the decoder reports a checksum failure
exactly when that value differs from the big-endian u16 stored in the final
two payload bytes. -/
theorem checksum_formula (frame : List Nat) (h28 : frame.length = 28)
    (hb : ∀ b ∈ frame, b < 256) :
    actualChecksum frame = (START_SEQUENCE.sum + (frame.take 26).sum) % 65536 ∧
    (parse_init frame = ParseOutcome.dataError ↔
      actualChecksum frame ≠ frame.getD 26 0 * 256 + frame.getD 27 0) := by
  have hsub : ∀ b ∈ frame.take 26, b < 256 := fun b hbm => hb b (List.take_subset _ _ hbm)
  have hsum : (frame.take 26).sum ≤ 26 * 255 := by
    have h2 := byte_sum_le hsub
    have h3 : (frame.take 26).length = 26 := by simp [List.length_take, h28]
    rw [h3] at h2
    exact h2
  have hlt : START_SEQUENCE.sum + (frame.take 26).sum < 65536 := by
    have hss : START_SEQUENCE.sum = 171 := rfl
    omega
  have hac : actualChecksum frame = START_SEQUENCE.sum + (frame.take 26).sum := by
    unfold actualChecksum
    rw [h28, show (28 : Nat) - 2 = 26 from rfl, List.sum_append]
  have hexp : (unpackU16BE frame).getD 13 0 =
      frame.getD 26 0 * 256 + frame.getD 27 0 := by
    have h := unpack_getD 13 frame (by omega)
    rw [show 2 * 13 = 26 from rfl, show 2 * 13 + 1 = 27 from rfl] at h
    exact h
  constructor
  · rw [hac, Nat.mod_eq_of_lt hlt]
  · unfold parse_init
    rw [if_neg (by omega), hexp]
    by_cases hne : actualChecksum frame ≠ frame.getD 26 0 * 256 + frame.getD 27 0
    · rw [if_pos hne]
      exact iff_of_true rfl hne
    · rw [if_neg hne]
      cases hmk : mkMeasurement (unpackU16BE frame).dropLast <;>
        exact iff_of_false (by simp) hne

theorem checksum_formula_witness :
    (encodePayload M0).length = 28 ∧ (∀ b ∈ encodePayload M0, b < 256) ∧
    (actualChecksum (encodePayload M0) =
        (START_SEQUENCE.sum + ((encodePayload M0).take 26).sum) % 65536 ∧
      (parse_init (encodePayload M0) = ParseOutcome.dataError ↔
        actualChecksum (encodePayload M0) ≠
          (encodePayload M0).getD 26 0 * 256 + (encodePayload M0).getD 27 0)) :=
  ⟨by decide, by decide, checksum_formula (encodePayload M0) (by decide) (by decide)⟩

/-- C7 counterexample: on the end-to-end frame, the timestamp paired with
the measurement is the wall clock at byte position 4 — right after the 4
start-sequence bytes and before any of the 28 payload bytes is read — while
the frame's terminating byte is consumed at position 32, where the wall
clock differs.  The claim that the timestamp is recorded when the last byte
is consumed (after the payload is read and decoded) is therefore false. -/
theorem timestamp_before_payload_cex :
    readOne parse_init natClock 0 (encodeFrame M0) =
      ReadOneResult.ok (natClock 4) (Val.meas M0) 32 [] ∧
    natClock 4 ≠ natClock 32 := by
  decide

/-- C7 amended: the timestamp of a measurement read at byte position `pos`
is the wall clock at `pos + 4`, i.e. `time.time()` is called immediately
after the 4-byte start sequence is matched and before the 28-byte payload is
consumed (the read finishes at `pos + 32`). -/
theorem timestamp_at_marker_end (clk : Nat → Int) (pos : Nat) (rest : List Nat)
    (m : PMS5003Measurement) (hm : ∀ f ∈ fieldsOf m, f < 65536) :
    readOne parse_init clk pos (encodeFrame m ++ rest) =
      ReadOneResult.ok (clk (pos + 4)) (Val.meas m) (pos + 32) rest :=
  readOne_frame clk pos rest m hm

theorem timestamp_at_marker_end_witness :
    (∀ f ∈ fieldsOf M1, f < 65536) ∧
    readOne parse_init natClock 7 (encodeFrame M1 ++ [1, 2]) =
      ReadOneResult.ok (natClock (7 + 4)) (Val.meas M1) (7 + 32) [1, 2] :=
  ⟨by decide, timestamp_at_marker_end natClock 7 [1, 2] M1 (by decide)⟩

/-- C8 counterexample: a 27-byte payload makes both `_parse` variants raise
`struct.error` from `struct.unpack` (the format requires exactly 28 bytes);
nothing in the code produces a distinct recoverable `TruncatedFrame` or
discards and resynchronizes — the exception is unhandled. -/
theorem truncated_payload_struct_error_cex :
    parse_serial (List.replicate 27 0) = ParseOutcome.structError ∧
    parse_init (List.replicate 27 0) = ParseOutcome.structError := by
  decide

/-- C8 amended: for any payload whose length is not exactly 28 bytes, both
decoder variants fail with the raised `struct.error` (no `TruncatedFrame`
error type exists, and no discard-and-resynchronize handling is applied to
it — the exception propagates out of the pipeline). -/
theorem truncated_payload_struct_error (payload : List Nat)
    (h : payload.length ≠ 28) :
    parse_serial payload = ParseOutcome.structError ∧
    parse_init payload = ParseOutcome.structError := by
  constructor
  · unfold parse_serial
    rw [if_pos h]
  · unfold parse_init
    rw [if_pos h]

theorem truncated_payload_struct_error_witness :
    (List.replicate 5 0).length ≠ 28 ∧
    (parse_serial (List.replicate 5 0) = ParseOutcome.structError ∧
     parse_init (List.replicate 5 0) = ParseOutcome.structError) :=
  ⟨by decide, truncated_payload_struct_error (List.replicate 5 0) (by decide)⟩

/-- C4: warmup suppression.  With a wall clock that never runs backwards and
`W > 0`, every `(timestamp, value)` pair the stream emits has a timestamp at
least `start_time + W` (frames decoded earlier are consumed inside the
warmup loop and never appear in the output, whose deadline check happens on
each decoded timestamp); with `W ≤ 0` the warmup phase is skipped entirely
and `read` is exactly the main loop started with the `None` previous
reference, so the first decoded measurement is immediately eligible. -/
theorem warmup_suppression (parse : List Nat → ParseOutcome) (clk : Nat → Int)
    (hmono : ∀ a b : Nat, a ≤ b → clk a ≤ clk b) (d : Bool) (W : Int)
    (pos : Nat) (s : List Nat) :
    (0 < W → ∀ ts v, (ts, v) ∈ (PMS5003Serial.read parse clk d W pos s).emitted →
      clk pos + W ≤ ts) ∧
    (W ≤ 0 → PMS5003Serial.read parse clk d W pos s =
      readLoopF parse clk d (s.length + 1) none pos s) := by
  constructor
  · intro hW ts v hmem
    unfold PMS5003Serial.read at hmem
    rw [if_pos hW] at hmem
    dsimp only at hmem
    cases hwu : warmupLoopF parse clk (clk pos + W) (s.length + 1) (clk pos)
        none pos s with
    | stop t =>
      rw [hwu] at hmem
      simp at hmem
    | done prev' pos' s' =>
      rw [hwu] at hmem
      dsimp only at hmem
      obtain ⟨q, hq1, hq2⟩ := readLoopF_emitted_inv _ _ _ _ hmem
      rcases warmupLoopF_done_inv _ _ _ _ _ hwu with ⟨hle, _⟩ | ⟨q0, hq01, hq02⟩
      · omega
      · have h1 : clk q0 ≤ clk q := hmono q0 q (by omega)
        rw [hq2]
        omega
  · intro hW
    unfold PMS5003Serial.read
    rw [if_neg (by omega)]

theorem warmup_suppression_witness :
    (∀ a b : Nat, a ≤ b → natClock a ≤ natClock b) ∧
    (0 < (5 : Int) → ∀ ts v,
      (ts, v) ∈ (PMS5003Serial.read parse_init natClock true 5 0
        (encodeFrame M0 ++ (encodeFrame M0 ++ encodeFrame M1))).emitted →
      natClock 0 + 5 ≤ ts) ∧
    (PMS5003Serial.read parse_init natClock true 5 0
        (encodeFrame M0 ++ (encodeFrame M0 ++ encodeFrame M1))).emitted =
      [(68, Val.meas M1)] :=
  ⟨natClock_mono,
   (warmup_suppression parse_init natClock natClock_mono true 5 0 _).1,
   by decide⟩

/-- C5: dedupe policy.  Post-warmup (warmup 0), the frame sequence
`[A, A, A, B, B, A]` with `A ≠ B` yields exactly `[A, B, A]` (with the
timestamps of the first, fourth and sixth frames) when dedupe is on, and all
six in order when dedupe is off: comparison is structural equality against
only the single most recent emitted-or-warmup value, so the final `A`
(separated from the earlier ones by `B`) is emitted again. -/
theorem dedupe_policy (A B : PMS5003Measurement)
    (hA : ∀ f ∈ fieldsOf A, f < 65536) (hB : ∀ f ∈ fieldsOf B, f < 65536)
    (hAB : A ≠ B) (clk : Nat → Int) :
    PMS5003Serial.read parse_init clk true 0 0
        (encodeFrame A ++ (encodeFrame A ++ (encodeFrame A ++ (encodeFrame B ++
          (encodeFrame B ++ encodeFrame A))))) =
      ⟨[(clk 4, Val.meas A), (clk 100, Val.meas B), (clk 164, Val.meas A)],
        Terminal.blocked⟩ ∧
    PMS5003Serial.read parse_init clk false 0 0
        (encodeFrame A ++ (encodeFrame A ++ (encodeFrame A ++ (encodeFrame B ++
          (encodeFrame B ++ encodeFrame A))))) =
      ⟨[(clk 4, Val.meas A), (clk 36, Val.meas A), (clk 68, Val.meas A),
        (clk 100, Val.meas B), (clk 132, Val.meas B), (clk 164, Val.meas A)],
        Terminal.blocked⟩ := by
  have hBA : B ≠ A := fun h => hAB h.symm
  have h0 : readOne parse_init clk 0 (encodeFrame A ++ (encodeFrame A ++
      (encodeFrame A ++ (encodeFrame B ++ (encodeFrame B ++ encodeFrame A))))) =
      ReadOneResult.ok (clk 4) (Val.meas A) 32 (encodeFrame A ++
        (encodeFrame A ++ (encodeFrame B ++ (encodeFrame B ++ encodeFrame A)))) := by
    have h := readOne_frame clk 0 (encodeFrame A ++
      (encodeFrame A ++ (encodeFrame B ++ (encodeFrame B ++ encodeFrame A)))) A hA
    norm_num at h
    exact h
  have h1 : readOne parse_init clk 32 (encodeFrame A ++
      (encodeFrame A ++ (encodeFrame B ++ (encodeFrame B ++ encodeFrame A)))) =
      ReadOneResult.ok (clk 36) (Val.meas A) 64 (encodeFrame A ++
        (encodeFrame B ++ (encodeFrame B ++ encodeFrame A))) := by
    have h := readOne_frame clk 32 (encodeFrame A ++
      (encodeFrame B ++ (encodeFrame B ++ encodeFrame A))) A hA
    norm_num at h
    exact h
  have h2 : readOne parse_init clk 64 (encodeFrame A ++
      (encodeFrame B ++ (encodeFrame B ++ encodeFrame A))) =
      ReadOneResult.ok (clk 68) (Val.meas A) 96
        (encodeFrame B ++ (encodeFrame B ++ encodeFrame A)) := by
    have h := readOne_frame clk 64
      (encodeFrame B ++ (encodeFrame B ++ encodeFrame A)) A hA
    norm_num at h
    exact h
  have h3 : readOne parse_init clk 96 (encodeFrame B ++
      (encodeFrame B ++ encodeFrame A)) =
      ReadOneResult.ok (clk 100) (Val.meas B) 128
        (encodeFrame B ++ encodeFrame A) := by
    have h := readOne_frame clk 96 (encodeFrame B ++ encodeFrame A) B hB
    norm_num at h
    exact h
  have h4 : readOne parse_init clk 128 (encodeFrame B ++ encodeFrame A) =
      ReadOneResult.ok (clk 132) (Val.meas B) 160 (encodeFrame A) := by
    have h := readOne_frame clk 128 (encodeFrame A) B hB
    norm_num at h
    exact h
  have h5 : readOne parse_init clk 160 (encodeFrame A) =
      ReadOneResult.ok (clk 164) (Val.meas A) 192 [] := by
    have h := readOne_frame clk 160 [] A hA
    rw [List.append_nil] at h
    norm_num at h
    exact h
  have pTnone : (true && pyEq (Val.meas A) none) = false := by simp [pyEq]
  have pAA : (true && pyEq (Val.meas A) (some (Val.meas A))) = true := by simp [pyEq]
  have pBB : (true && pyEq (Val.meas B) (some (Val.meas B))) = true := by simp [pyEq]
  have pBA : (true && pyEq (Val.meas B) (some (Val.meas A))) = false := by
    simp [pyEq, hBA]
  have pAB : (true && pyEq (Val.meas A) (some (Val.meas B))) = false := by
    simp [pyEq, hAB]
  have pF : ∀ (c : Val) (p : Option Val), (false && pyEq c p) = false :=
    fun c p => rfl
  have hlen : (encodeFrame A ++ (encodeFrame A ++ (encodeFrame A ++
      (encodeFrame B ++ (encodeFrame B ++ encodeFrame A))))).length = 192 := by
    simp [List.length_append, encodeFrame_length]
  constructor
  · unfold PMS5003Serial.read
    rw [if_neg (by omega), hlen,
      readLoopF_emit parse_init clk true (show (192 : Nat) + 1 = 192 + 1 from rfl)
        h0 pTnone,
      readLoopF_skip parse_init clk true (show (192 : Nat) = 191 + 1 by norm_num)
        h1 pAA,
      readLoopF_skip parse_init clk true (show (191 : Nat) = 190 + 1 by norm_num)
        h2 pAA,
      readLoopF_emit parse_init clk true (show (190 : Nat) = 189 + 1 by norm_num)
        h3 pBA,
      readLoopF_skip parse_init clk true (show (189 : Nat) = 188 + 1 by norm_num)
        h4 pBB,
      readLoopF_emit parse_init clk true (show (188 : Nat) = 187 + 1 by norm_num)
        h5 pAB,
      readLoopF_nil parse_init clk true (show (187 : Nat) = 186 + 1 by norm_num)]
  · unfold PMS5003Serial.read
    rw [if_neg (by omega), hlen,
      readLoopF_emit parse_init clk false (show (192 : Nat) + 1 = 192 + 1 from rfl)
        h0 (pF _ _),
      readLoopF_emit parse_init clk false (show (192 : Nat) = 191 + 1 by norm_num)
        h1 (pF _ _),
      readLoopF_emit parse_init clk false (show (191 : Nat) = 190 + 1 by norm_num)
        h2 (pF _ _),
      readLoopF_emit parse_init clk false (show (190 : Nat) = 189 + 1 by norm_num)
        h3 (pF _ _),
      readLoopF_emit parse_init clk false (show (189 : Nat) = 188 + 1 by norm_num)
        h4 (pF _ _),
      readLoopF_emit parse_init clk false (show (188 : Nat) = 187 + 1 by norm_num)
        h5 (pF _ _),
      readLoopF_nil parse_init clk false (show (187 : Nat) = 186 + 1 by norm_num)]

theorem dedupe_policy_witness :
    M0 ≠ M1 ∧
    PMS5003Serial.read parse_init natClock true 0 0
        (encodeFrame M0 ++ (encodeFrame M0 ++ (encodeFrame M0 ++ (encodeFrame M1 ++
          (encodeFrame M1 ++ encodeFrame M0))))) =
      ⟨[(natClock 4, Val.meas M0), (natClock 100, Val.meas M1),
        (natClock 164, Val.meas M0)], Terminal.blocked⟩ :=
  ⟨by decide, (dedupe_policy M0 M1 (by decide) (by decide) (by decide) natClock).1⟩

/-- C9: with warmup skipped (`W ≤ 0`) and dedupe enabled, the first decoded
item of a session is always emitted: the previous reference starts as the
`None` sentinel and the Python comparison of any value with `None` is
`False`, so the dedupe check cannot suppress the first item. -/
theorem first_measurement_emitted (parse : List Nat → ParseOutcome)
    (clk : Nat → Int) (W : Int) (hW : W ≤ 0) (pos : Nat) (s : List Nat)
    (ts : Int) (c : Val) (pos' : Nat) (s' : List Nat)
    (h : readOne parse clk pos s = ReadOneResult.ok ts c pos' s') :
    pyEq c none = false ∧
    (PMS5003Serial.read parse clk true W pos s).emitted.head? = some (ts, c) := by
  have hpy : pyEq c none = false := by cases c <;> rfl
  refine ⟨hpy, ?_⟩
  unfold PMS5003Serial.read
  rw [if_neg (by omega)]
  cases s with
  | nil =>
    rw [readOne_nil] at h
    simp at h
  | cons a t =>
    rw [readLoopF_emit parse clk true
      (show (a :: t).length + 1 = (a :: t).length + 1 from rfl) h (by simp [hpy])]
    rfl

theorem first_measurement_emitted_witness :
    (0 : Int) ≤ 0 ∧
    (pyEq (Val.meas M0) none = false ∧
     (PMS5003Serial.read parse_init natClock true 0 0
        (encodeFrame M0 ++ encodeFrame M0)).emitted.head? =
       some (natClock 4, Val.meas M0)) :=
  ⟨le_refl 0,
   first_measurement_emitted parse_init natClock 0 (le_refl 0) 0
     (encodeFrame M0 ++ encodeFrame M0) (natClock 4) (Val.meas M0) 32
     (encodeFrame M0) (by decide)⟩

/-- C10: when `W > 0` the warmup loop always runs at least once, and the
first decoded item whose timestamp has reached `start_time + W` is itself
consumed inside the warmup loop: the loop exits returning it only as the
seed of the previous-reference, and the whole `read` continues as the main
loop on the remaining bytes — so that item is never emitted and emission
begins with the following frame. -/
theorem warmup_overconsumes_first_post_deadline (parse : List Nat → ParseOutcome)
    (clk : Nat → Int) (d : Bool) (W : Int) (pos : Nat) (s : List Nat)
    (ts : Int) (c : Val) (pos' : Nat) (s' : List Nat)
    (h : readOne parse clk pos s = ReadOneResult.ok ts c pos' s') :
    (∀ (f : Nat) (t0 wt : Int) (prev : Option Val), t0 < wt → wt ≤ ts →
      warmupLoopF parse clk wt (f + 2) t0 prev pos s =
        WarmupResult.done (some c) pos' s') ∧
    (0 < W → clk pos + W ≤ ts →
      PMS5003Serial.read parse clk d W pos s =
        readLoopF parse clk d (s'.length + 1) (some c) pos' s') := by
  have hstep : ∀ (f : Nat) (t0 wt : Int) (prev : Option Val), t0 < wt → wt ≤ ts →
      warmupLoopF parse clk wt (f + 2) t0 prev pos s =
        WarmupResult.done (some c) pos' s' := by
    intro f t0 wt prev h1 h2
    rw [warmupLoopF_step parse clk wt (show f + 2 = f + 1 + 1 from rfl) h1 h,
      warmupLoopF_exit parse clk wt (show f + 1 = f + 1 from rfl) (by omega)]
  refine ⟨hstep, ?_⟩
  intro hW hts
  unfold PMS5003Serial.read
  rw [if_pos hW]
  cases s with
  | nil =>
    rw [readOne_nil] at h
    simp at h
  | cons a t =>
    dsimp only
    rw [show (a :: t).length + 1 = t.length + 2 from by
        simp only [List.length_cons]]
    rw [hstep t.length (clk pos) (clk pos + W) none (by omega) hts]

theorem warmup_overconsumes_first_post_deadline_witness :
    (0 : Int) < 3 ∧ natClock 0 + 3 ≤ 4 ∧
    (PMS5003Serial.read parse_init natClock true 3 0
        (encodeFrame M0 ++ encodeFrame M1) =
      readLoopF parse_init natClock true ((encodeFrame M1).length + 1)
        (some (Val.meas M0)) 32 (encodeFrame M1)) ∧
    (PMS5003Serial.read parse_init natClock true 3 0
        (encodeFrame M0 ++ encodeFrame M1)).emitted = [(36, Val.meas M1)] :=
  ⟨by decide, by decide,
   (warmup_overconsumes_first_post_deadline parse_init natClock true 3 0
      (encodeFrame M0 ++ encodeFrame M1) 4 (Val.meas M0) 32 (encodeFrame M1)
      (by decide)).2 (by decide) (by decide),
   by decide⟩
